import Mathlib

/-!
Shallow embedding of `app.py` (Gerzeny's data dashboard): coordinate
validation, CSV schema sniffing and cleaning, popup/tooltip construction,
marker layers and map composition, together with theorems checking the
specification's claims against it.

Modelling conventions:
* Python/pandas scalars are `PyVal`; a string cell is tagged with the
  outcome of Python float parsing (`numStr` when it parses, `str` when
  `float(...)` raises), since the embedding does not re-implement the
  numeric-literal grammar.
* Finite floats are rationals; `nan`, `inf`, `-inf` are explicit
  constructors with Python comparison semantics.
* A pandas DataFrame is column names, per-column numeric-dtype flags (as
  inferred by `read_csv`), and row-major cell lists.
* Code that can raise is modelled in `Except String`.
-/

namespace App

/-- A Python float value: finite (as an exact rational), or one of the
non-finite values. -/
inductive PyFloat where
  | finite : ℚ → PyFloat
  | nan : PyFloat
  | inf : PyFloat
  | ninf : PyFloat
deriving DecidableEq

/-- Python `<=` on floats: any comparison with `nan` is false. -/
def PyFloat.le : PyFloat → PyFloat → Bool
  | .nan, _ => false
  | _, .nan => false
  | .ninf, _ => true
  | _, .inf => true
  | .inf, _ => false
  | _, .ninf => false
  | .finite a, .finite b => a ≤ b

/-- `notna` on a float: false exactly on `nan`. -/
def PyFloat.notna : PyFloat → Bool
  | .nan => false
  | _ => true

/-- Pandas `Series.between(lo, hi)` on one float value (inclusive bounds). -/
def PyFloat.between (x : PyFloat) (lo hi : ℚ) : Bool :=
  PyFloat.le (.finite lo) x && PyFloat.le x (.finite hi)

/-- A Python/pandas scalar cell value.  A string carries the outcome of
Python float parsing: `numStr s q` is a string `s` that `float` parses to
the finite value `q`, `str s` is a string on which `float` raises. -/
inductive PyVal where
  | num : ℚ → PyVal
  | nan : PyVal
  | inf : PyVal
  | ninf : PyVal
  | numStr : String → ℚ → PyVal
  | str : String → PyVal
  | null : PyVal
deriving DecidableEq

/-- Python `float(v)`: `some` of the parsed float, `none` when `float`
raises (`ValueError` on a non-numeric string, `TypeError` on `None`). -/
def toFloat : PyVal → Option PyFloat
  | .num q => some (.finite q)
  | .nan => some .nan
  | .inf => some .inf
  | .ninf => some .ninf
  | .numStr _ q => some (.finite q)
  | .str _ => none
  | .null => none

/-- `pd.to_numeric(v, errors="coerce")` on one cell: unconvertible values
become `nan`. -/
def to_numeric : PyVal → PyFloat
  | .num q => .finite q
  | .nan => .nan
  | .inf => .inf
  | .ninf => .ninf
  | .numStr _ q => .finite q
  | .str _ => .nan
  | .null => .nan

/-- A coerced float stored back into a cell. -/
def pfVal : PyFloat → PyVal
  | .finite q => .num q
  | .nan => .nan
  | .inf => .inf
  | .ninf => .ninf

/-- `pd.notna` on a cell: false on `None` and `nan`. -/
def pyNotna : PyVal → Bool
  | .nan => false
  | .null => false
  | _ => true

/-- Python `str(v)` of a cell.  The rendering of numerics abstracts the
repr of the underlying double; no claim depends on its exact digits. -/
def pyStr : PyVal → String
  | .num q => if q.den = 1 then toString q.num else toString q
  | .nan => "nan"
  | .inf => "inf"
  | .ninf => "-inf"
  | .numStr s _ => s
  | .str s => s
  | .null => "None"

/-- ASCII lower-casing, modelling Python `str.lower()` on column names. -/
def lowerStr (s : String) : String := String.mk (s.data.map Char.toLower)

/-- Whether `pat` occurs as a contiguous substring of `s` (Python `in`). -/
def charsContain : List Char → List Char → Bool
  | s, pat =>
    match s with
    | [] => pat.isEmpty
    | _ :: t => pat.isPrefixOf s || charsContain t pat

/-- Python `pat in s` on strings. -/
def strContains (s pat : String) : Bool := charsContain s.data pat.data

/-- `validate_coordinates` from `app.py`: converts both inputs with
`float`, returning false when either conversion raises, else checks the
chained comparisons `-90 <= lat <= 90 and -180 <= lon <= 180`. -/
def validate_coordinates (lat lon : PyVal) : Bool :=
  match toFloat lat, toFloat lon with
  | some la, some lo =>
      (PyFloat.le (.finite (-90)) la && PyFloat.le la (.finite 90))
        && (PyFloat.le (.finite (-180)) lo && PyFloat.le lo (.finite 180))
  | _, _ => false

/-- A pandas DataFrame: column names, per-column numeric-dtype flags
(aligned with `colNames`), and rows of cells (each row aligned with
`colNames`). -/
structure DataFrame where
  colNames : List String
  numeric : List Bool
  rows : List (List PyVal)
deriving DecidableEq

/-- The empty DataFrame `pd.DataFrame()`. -/
def emptyDF : DataFrame := ⟨[], [], []⟩

/-- Rows of a DataFrame are well formed when each is aligned with the
column list. -/
def DataFrame.wf (d : DataFrame) : Bool :=
  d.rows.all fun r => r.length == d.colNames.length

/-- The names of the numeric-dtype columns, in original order
(`df.select_dtypes(include=[np.number]).columns`). -/
def numericCols (d : DataFrame) : List String :=
  ((d.colNames.zip d.numeric).filter (·.2)).map (·.1)

/-- Cell of row `r` at the column named `c` (first occurrence), with a
`null` default for ill-formed rows. -/
def cellD (d : DataFrame) (r : List PyVal) (c : String) : PyVal :=
  match d.colNames.findIdx? (· == c) with
  | some i => (r.get? i).getD .null
  | none => .null

/-- The substrings recognised as latitude column names. -/
def latTokens : List String := ["lat", "latitude"]

/-- The substrings recognised as longitude column names. -/
def lonTokens : List String := ["lon", "long", "longitude", "lng"]

/-- Does a column name (lower-cased) contain a latitude token? -/
def latMatch (c : String) : Bool :=
  latTokens.any fun t => strContains (lowerStr c) t

/-- Does a column name (lower-cased) contain a longitude token? -/
def lonMatch (c : String) : Bool :=
  lonTokens.any fun t => strContains (lowerStr c) t

/-- One iteration of the detection loop in `parse_csv`: record the column
as the lat (resp. lon) candidate when none has been found yet and its
lower-cased name contains a matching token. -/
def sniffStep (p : Option String × Option String) (c : String) :
    Option String × Option String :=
  ( if p.1.isNone && latMatch c then some c else p.1,
    if p.2.isNone && lonMatch c then some c else p.2 )

/-- The `for c in df.columns` detection loop of `parse_csv`. -/
def detectLatLon (names : List String) : Option String × Option String :=
  names.foldl sniffStep (Option.none, Option.none)

/-- Resolution of the lat/lon columns in `parse_csv`: the detection loop,
then the numeric-columns fallback `nums[:2]` when either is missing. -/
def resolveLatLon (d : DataFrame) : Option (String × String) :=
  match detectLatLon d.colNames with
  | (some la, some lo) => some (la, lo)
  | _ =>
    match numericCols d with
    | a :: b :: _ => some (a, b)
    | _ => Option.none

/-- The substrings recognised as postal-code column names. -/
def postalTokens : List String :=
  ["postal", "postal code", "zip", "zip code", "zipcode", "post_code",
   "pincode", "zip_code"]

/-- Does a column name (lower-cased) contain a postal token? -/
def postalMatch (c : String) : Bool :=
  postalTokens.any fun t => strContains (lowerStr c) t

/-- Does a column name (lower-cased) equal one of the recognised display
names? -/
def nameMatch (c : String) : Bool :=
  ["name", "title", "label", "location_name"].contains (lowerStr c)

/-- Result of `parse_csv`: the cleaned frame, the two counters, and the
four detected column names. -/
structure ParseResult where
  valid : DataFrame
  valid_count : Nat
  invalid_count : Nat
  postal_col : Option String
  name_col : Option String
  lat_col : Option String
  lon_col : Option String
deriving DecidableEq

/-- The coerced (lat, lon) pair of one row
(`pd.to_numeric(tmp[lat_col])`, `pd.to_numeric(tmp[lon_col])`). -/
def coerceRow (d : DataFrame) (latc lonc : String) (r : List PyVal) :
    PyFloat × PyFloat :=
  (to_numeric (cellD d r latc), to_numeric (cellD d r lonc))

/-- The validity mask of one row: both coerced values non-missing, the
latitude between -90 and 90 and the longitude between -180 and 180. -/
def rowMask (d : DataFrame) (latc lonc : String) (r : List PyVal) : Bool :=
  (coerceRow d latc lonc r).1.notna && (coerceRow d latc lonc r).2.notna
    && (coerceRow d latc lonc r).1.between (-90) 90
    && (coerceRow d latc lonc r).2.between (-180) 180

/-- `parse_csv` from `app.py`, after the `pd.read_csv` step: detect the
lat/lon columns (with the numeric fallback), coerce and validate, keep the
surviving rows with the coerced values appended under the canonical names
`latitude`/`longitude` (the `__lat`/`__lon` scratch columns after the
rename; the originals are kept), and detect the postal and name columns on
the resulting frame. -/
def parse_csv (d : DataFrame) : ParseResult :=
  match resolveLatLon d with
  | Option.none =>
      ⟨emptyDF, 0, d.rows.length, Option.none, Option.none, Option.none,
       Option.none⟩
  | some (latc, lonc) =>
      let kept := d.rows.filter (rowMask d latc lonc)
      let rows2 := kept.map fun r =>
        r ++ [pfVal (coerceRow d latc lonc r).1,
              pfVal (coerceRow d latc lonc r).2]
      let names2 := d.colNames ++ ["latitude", "longitude"]
      let valid : DataFrame := ⟨names2, d.numeric ++ [true, true], rows2⟩
      let vc := d.rows.countP (rowMask d latc lonc)
      ⟨valid, vc, d.rows.length - vc,
       names2.find? postalMatch, names2.find? nameMatch, some latc,
       some lonc⟩

/-- The example CSV of the spec, as `pd.read_csv` delivers it: columns
`lat`, `lng`, `name` (all object dtype, the mixed columns read as
strings), rows (10,20,"A"), (91,20,"B"), ("x","y","C"). -/
def exampleDF : DataFrame :=
  ⟨["lat", "lng", "name"], [false, false, false],
   [[.numStr "10" 10, .numStr "20" 20, .str "A"],
    [.numStr "91" 91, .numStr "20" 20, .str "B"],
    [.str "x", .str "y", .str "C"]]⟩

/-- A frame with no recognisable lat/lon names and fewer than two numeric
columns: the schema is unresolvable. -/
def noNumDF : DataFrame :=
  ⟨["a", "b"], [false, false], [[.str "u", .str "v"]]⟩

/-- A pandas row seen as a Series: column label paired with cell value. -/
def Row := List (String × PyVal)

/-- `row.get(k, None)` restricted to presence: the value under the first
occurrence of label `k`, if any. -/
def rowGet (row : Row) (k : String) : Option PyVal :=
  (List.find? (fun p => p.1 == k) row).map (·.2)

/-- `row[k]` on a Series: the value, or a `KeyError` when the label is
absent. -/
def getItem (row : Row) (k : String) : Except String PyVal :=
  match rowGet row k with
  | some v => Except.ok v
  | none => Except.error ("KeyError: \x27" ++ k ++ "\x27")

/-- Fixed 6-decimal rendering of a rational, for the `:.6f` format
(rounding to nearest abstracts the formatting of the underlying double). -/
def formatFixed6 (q : ℚ) : String :=
  let sign := if q < 0 then "-" else ""
  let a : ℚ := if q < 0 then -q else q
  let scaled : ℤ := (a.num * 1000000) / (a.den : ℤ)
  let rem : ℤ := (a.num * 1000000) % (a.den : ℤ)
  let n : ℤ := if (a.den : ℤ) ≤ 2 * rem then scaled + 1 else scaled
  let ip := n / 1000000
  let fp := (n % 1000000).toNat
  let fs := toString fp
  let pad := String.mk (List.replicate (6 - fs.length) '0')
  sign ++ toString ip ++ "." ++ pad ++ fs

/-- The `:.6f` format applied to a float. -/
def fmtFloat6 : PyFloat → String
  | .finite q => formatFixed6 q
  | .nan => "nan"
  | .inf => "inf"
  | .ninf => "-inf"

/-- The `:.6f` format applied to a cell, as Python does inside an
f-string: formats numbers, raises on strings and `None`. -/
def pyFormatF6 : PyVal → Except String String
  | .num q => Except.ok (formatFixed6 q)
  | .nan => Except.ok "nan"
  | .inf => Except.ok "inf"
  | .ninf => Except.ok "-inf"
  | .numStr _ _ => Except.error "ValueError: unknown format code f for str"
  | .str _ => Except.error "ValueError: unknown format code f for str"
  | .null => Except.error "TypeError: unsupported format string"

/-- One conditional `<b>Label:</b> value<br>` part keyed by a literal
column name (`if key in row and pd.notna(row[key])`). -/
def keyedPart (row : Row) (key labelTxt : String) : List String :=
  match rowGet row key with
  | some v =>
      if pyNotna v then ["<b>" ++ labelTxt ++ ":</b> " ++ pyStr v ++ "<br>"]
      else []
  | none => []

/-- One conditional part keyed by a detected column
(`if col and col in row and pd.notna(row[col])`; an empty column name is
falsy in Python). -/
def colPart (row : Row) (c : Option String) (labelTxt : String) :
    List String :=
  match c with
  | some cc => if cc ≠ "" then keyedPart row cc labelTxt else []
  | none => []

/-- `popup_html` from `app.py`.  Note that it reads the capitalised keys
`Latitude` and `Longitude`, raising a `KeyError` when the row only carries
the canonical lower-case fields. -/
def popup_html (row : Row) (postal_col name_col : Option String) :
    Except String String := do
  let latv ← getItem row "Latitude"
  let lats ← pyFormatF6 latv
  let lonv ← getItem row "Longitude"
  let lons ← pyFormatF6 lonv
  Except.ok (String.join
    (["<div class=\x27cluster-popup\x27>", "<b>📍 Location Details</b><br>"]
      ++ colPart row name_col "Name"
      ++ ["<b>Latitude:</b> " ++ lats ++ "<br>",
          "<b>Longitude:</b> " ++ lons ++ "<br>"]
      ++ colPart row postal_col "Postal Code"
      ++ keyedPart row "state" "State"
      ++ keyedPart row "city" "City"
      ++ keyedPart row "address" "Address"
      ++ ["</div>"]))

/-- `tooltip_html` from `app.py`: optional bold name, the
`Latitude: ..., Longitude: ...` line (literal n/a text when either
coordinate is unset), optional postal line. -/
def tooltip_html (row : Row) (postal_col name_col : Option String) :
    Except String String := do
  let name_line :=
    match name_col with
    | some nc =>
        if nc ≠ "" then
          match rowGet row nc with
          | some v => if pyNotna v then "<b>" ++ pyStr v ++ "</b><br>" else ""
          | none => ""
        else ""
    | none => ""
  let latlon_line ←
    match rowGet row "latitude", rowGet row "longitude" with
    | some lv, some wv =>
        if lv ≠ PyVal.null && wv ≠ PyVal.null then
          match toFloat lv, toFloat wv with
          | some a, some b =>
              Except.ok ("Latitude: " ++ fmtFloat6 a ++ ", Longitude: "
                ++ fmtFloat6 b)
          | _, _ => Except.error "ValueError: could not convert to float"
        else Except.ok "Latitude: n/a, Longitude: n/a"
    | _, _ => Except.ok "Latitude: n/a, Longitude: n/a"
  let postal_line :=
    match postal_col with
    | some pc =>
        if pc ≠ "" then
          match rowGet row pc with
          | some v =>
              if pyNotna v then "<br>Postal Code: " ++ pyStr v else ""
          | none => ""
        else ""
    | none => ""
  Except.ok (name_line ++ latlon_line ++ postal_line)

/-- The fixed `MarkerCluster` options of `add_layer`. -/
structure ClusterOpts where
  maxClusterRadius : Nat
  spiderfyOnMaxZoom : Bool
  showCoverageOnHover : Bool
  zoomToBoundsOnClick : Bool
deriving DecidableEq

/-- The option values hard-coded in `add_layer`. -/
def fixedClusterOpts : ClusterOpts := ⟨50, true, true, true⟩

/-- One `folium.Marker`: location pair, tooltip text, popup text, icon
color. -/
structure Marker where
  location : PyVal × PyVal
  tooltip : String
  popup : String
  iconColor : String
deriving DecidableEq

/-- What a layer contains: nothing, a `FastMarkerCluster` of bare points,
or a `MarkerCluster` of full markers. -/
inductive LayerContent where
  | empty : LayerContent
  | fastCluster (cname : String) (pts : List (PyVal × PyVal)) : LayerContent
  | markerCluster (cname : String) (opts : ClusterOpts)
      (markers : List Marker) : LayerContent
deriving DecidableEq

/-- A `folium.FeatureGroup` with its content. -/
structure Layer where
  name : String
  content : LayerContent
deriving DecidableEq

/-- A DataFrame row as a Series (labels zipped with cells). -/
def rowOf (d : DataFrame) (r : List PyVal) : Row := d.colNames.zip r

/-- The `df[["latitude","longitude"]].to_numpy().tolist()` point list;
a missing column is a `KeyError`. -/
def latlonPairs (d : DataFrame) : Except String (List (PyVal × PyVal)) :=
  d.rows.mapM fun r => do
    let la ← getItem (rowOf d r) "latitude"
    let lo ← getItem (rowOf d r) "longitude"
    Except.ok (la, lo)

/-- One marker of the detailed path of `add_layer`: location from the
canonical columns, then tooltip, popup and colored icon. -/
def buildMarker (d : DataFrame) (color : String)
    (postal_col name_col : Option String) (r : List PyVal) :
    Except String Marker := do
  let row := rowOf d r
  let latv ← getItem row "latitude"
  let lonv ← getItem row "longitude"
  let tt ← tooltip_html row postal_col name_col
  let pp ← popup_html row postal_col name_col
  Except.ok ⟨(latv, lonv), tt, pp, color⟩

/-- `add_layer` from `app.py`: an empty frame gives a bare layer; the
`FastMarkerCluster` path needs `cluster and fast`; otherwise one marker
per row inside a `MarkerCluster` with the fixed options. -/
def add_layer (d : DataFrame) (color layer_name : String)
    (cluster fast : Bool) (postal_col name_col : Option String) :
    Except String Layer :=
  if d.rows.isEmpty then Except.ok ⟨layer_name, .empty⟩
  else if cluster && fast then do
    let pts ← latlonPairs d
    Except.ok ⟨layer_name, .fastCluster (layer_name ++ " Fast") pts⟩
  else do
    let ms ← d.rows.mapM (buildMarker d color postal_col name_col)
    Except.ok ⟨layer_name,
      .markerCluster (layer_name ++ " Clusters") fixedClusterOpts ms⟩

/-- A composed `folium.Map`: view center, initial zoom, the added layers
and controls. -/
structure FMap where
  location : ℚ × ℚ
  zoom_start : Nat
  layers : List Layer
  fullscreen : Bool
  layerControl : Bool
deriving DecidableEq

/-- Pandas `Series.mean()` over a cell list: the exact mean of the
numeric entries, `nan` entries skipped (validated coordinate columns only
hold finite numbers).  The sum is accumulated over a common denominator
in integer arithmetic so that the definition evaluates by kernel
reduction. -/
def seriesMean (vs : List PyVal) : ℚ :=
  let qs := vs.filterMap fun v =>
    match v with
    | PyVal.num q => some q
    | _ => none
  let s := qs.foldl
    (fun p q => (p.1 * (q.den : ℤ) + q.num * p.2, p.2 * (q.den : ℤ)))
    ((0 : ℤ), (1 : ℤ))
  Rat.divInt s.1 (s.2 * (qs.length : ℤ))

/-- `build_map` from `app.py`.  When both frames are empty it is the
default world view.  Otherwise `base` is built by the source expression
`[url] if not url.empty else [] + [store] if not store.empty else []`,
in which the conditional expression binds looser than `+`: whenever the
URL frame is non-empty, `base` is the URL frame alone. -/
def build_map (url_df store_df : DataFrame) (cluster fast_csv : Bool)
    (postal1 postal2 name1 name2 : Option String) :
    Except String FMap :=
  if url_df.rows.isEmpty && store_df.rows.isEmpty then
    Except.ok ⟨(20, 0), 2, [], false, false⟩
  else do
    let base ←
      if !url_df.rows.isEmpty then latlonPairs url_df
      else if !store_df.rows.isEmpty then latlonPairs store_df
      else Except.error "ValueError: No objects to concatenate"
    let loc : ℚ × ℚ :=
      (seriesMean (base.map (·.1)), seriesMean (base.map (·.2)))
    let l1 ← add_layer url_df "green" "URL Data (Green)" cluster fast_csv
      postal1 name1
    let l2 ← add_layer store_df "blue" "Store Data (Blue)" cluster fast_csv
      postal2 name2
    Except.ok ⟨loc, 9, [l1, l2], true, true⟩

/-- `parse_csv` including its `pd.read_csv(path_or_buf)` first line: the
CSV parse outcome is the input, and a parse failure propagates (the source
has no try/except). -/
def parse_csv_file (input : Except String DataFrame) :
    Except String ParseResult := do
  let df ← input
  Except.ok (parse_csv df)

/-- The loader state `main` keeps for a dataset whose file is missing:
empty frame, zero counters, no detected columns. -/
def emptyResult : ParseResult :=
  ⟨emptyDF, 0, 0, Option.none, Option.none, Option.none, Option.none⟩

/-- One dataset's load in `main`: an existing path goes through
`parse_csv` (whose exceptions propagate); a missing path only warns and
keeps the empty state. -/
def load_dataset (fileExists : Bool) (input : Except String DataFrame) :
    Except String ParseResult :=
  if fileExists then parse_csv_file input else Except.ok emptyResult

/-- The per-render outcome of `main` that the claims observe: both load
results and the composed map. -/
structure RenderOutput where
  url : ParseResult
  store : ParseResult
  fmap : FMap
deriving DecidableEq

/-- The `main` pipeline of `app.py` as the claims observe it: load the
URL dataset, then the Store dataset, then compose the map; in the
script-execution model an uncaught exception at any step aborts the whole
render. -/
def main_render (urlExists : Bool) (urlInput : Except String DataFrame)
    (storeExists : Bool) (storeInput : Except String DataFrame)
    (cluster fast_csv : Bool) : Except String RenderOutput := do
  let r1 ← load_dataset urlExists urlInput
  let r2 ← load_dataset storeExists storeInput
  let m ← build_map r1.valid r2.valid cluster fast_csv r1.postal_col
    r2.postal_col r1.name_col r2.name_col
  Except.ok ⟨r1, r2, m⟩

/-- The parse output of a URL CSV whose coordinate columns were named
`Latitude`/`Longitude` (so the capitalised originals survive next to the
canonical fields), holding one record at (0, 0). -/
def url1 : DataFrame :=
  ⟨["Latitude", "Longitude", "latitude", "longitude"],
   [true, true, true, true],
   [[.num 0, .num 0, .num 0, .num 0]]⟩

/-- The matching Store frame, holding one record at (10, 10). -/
def store1 : DataFrame :=
  ⟨["Latitude", "Longitude", "latitude", "longitude"],
   [true, true, true, true],
   [[.num 10, .num 10, .num 10, .num 10]]⟩

/-- The Schema Sniffer as the specification words it: the first
latitude-matching and the first longitude-matching column name; when
either is missing, the first two numeric-typed columns in original order
if at least two exist, else both unresolved. -/
def sniff_spec (names : List String) (numericNames : List String) :
    Option String × Option String :=
  match names.find? latMatch, names.find? lonMatch with
  | some a, some b => (some a, some b)
  | _, _ =>
    match numericNames with
    | a :: b :: _ => (some a, some b)
    | _ => (Option.none, Option.none)

end App

deriving instance DecidableEq for Except

namespace App

/-- The single detection pass of `parse_csv` records, for each role, the
first matching column. -/
theorem sniff_fold (names : List String) (p : Option String × Option String) :
    names.foldl sniffStep p =
      (p.1.or (names.find? latMatch), p.2.or (names.find? lonMatch)) := by
  induction names generalizing p with
  | nil => simp
  | cons c t ih =>
    rw [List.foldl_cons, ih]
    cases h1 : latMatch c <;> cases h2 : lonMatch c <;>
      cases hp1 : p.1 <;> cases hp2 : p.2 <;>
      simp [sniffStep, h1, h2, hp1, hp2, List.find?_cons]

/-- The lat/lon resolution of `parse_csv` agrees with the sniffer as the
spec words it. -/
theorem resolve_eq_spec (d : DataFrame) :
    (match resolveLatLon d with
     | some (a, b) => (some a, some b)
     | Option.none => (Option.none, Option.none)) =
      sniff_spec d.colNames (numericCols d) := by
  unfold resolveLatLon sniff_spec detectLatLon
  rw [sniff_fold]
  rcases hla : d.colNames.find? latMatch with _ | a <;>
    rcases hlo : d.colNames.find? lonMatch with _ | b <;>
    rcases hn : numericCols d with _ | ⟨x, _ | ⟨y, t⟩⟩ <;>
    simp [hn]

/-- C1: with a URL layer holding one record at (0,0) and a Store layer
holding one record at (10,10), the composed map is centered at (0,0) —
the mean of the URL layer alone, because of the conditional-expression
precedence in `base` — and not at the combined mean (5,5) the claim
states. -/
theorem build_map_center_drops_store :
    Except.map FMap.location
        (build_map url1 store1 true false Option.none Option.none
          Option.none Option.none) = Except.ok ((0 : ℚ), (0 : ℚ))
    ∧ Except.map FMap.location
        (build_map url1 store1 true false Option.none Option.none
          Option.none Option.none) ≠ Except.ok ((5 : ℚ), (5 : ℚ)) := by
  constructor
  · decide
  · decide

/-- C2: on the very records the Loader produces (the one surviving row of
the spec's example CSV, whose coordinates sit under the canonical
lower-case names), `popup_html` raises `KeyError` for `Latitude` instead
of returning the titled block, because it reads the capitalised keys. -/
theorem popup_html_raises_on_loader_record :
    (parse_csv exampleDF).valid.rows.map
        (fun r => popup_html ((parse_csv exampleDF).valid.colNames.zip r)
          (parse_csv exampleDF).postal_col (parse_csv exampleDF).name_col)
      = [Except.error "KeyError: \x27Latitude\x27"] := by
  decide

/-- C3 counterexample: the resolved latitude column of the example CSV is
`lat`, and the loaded frame still carries it under that original name
(with the canonical columns appended after all originals) — the resolved
columns are not renamed away as the claim states. -/
theorem parse_csv_keeps_original_columns_cex :
    (parse_csv exampleDF).lat_col = some "lat"
    ∧ (parse_csv exampleDF).valid.colNames =
        ["lat", "lng", "name", "latitude", "longitude"] := by
  decide

/-- C3 (amended): whenever the lat/lon columns resolve, the loaded frame
has the coerced coordinates appended under the canonical names after all
original columns, and on each surviving row the original columns, the
resolved ones included, keep their values unchanged. -/
theorem parse_csv_appends_canonical_columns (d : DataFrame)
    (hwf : d.wf = true) (hres : (resolveLatLon d).isSome = true) :
    (parse_csv d).valid.colNames = d.colNames ++ ["latitude", "longitude"]
    ∧ ∀ r ∈ (parse_csv d).valid.rows,
        r.take d.colNames.length ∈ d.rows := by
  cases hr : resolveLatLon d with
  | none => rw [hr] at hres; simp at hres
  | some pair =>
    obtain ⟨latc, lonc⟩ := pair
    constructor
    · simp [parse_csv, hr]
    · intro r hmem
      simp only [parse_csv, hr] at hmem
      obtain ⟨o, ho, rfl⟩ := List.mem_map.mp hmem
      have homem : o ∈ d.rows := (List.mem_filter.mp ho).1
      have holen : o.length = d.colNames.length := by
        have h2 := List.all_eq_true.mp hwf o homem
        simpa using h2
      rw [← holen, List.take_left]
      exact homem

/-- C3 amended witness: the loaded example frame has the canonical
columns appended, and its surviving row restricted to the original
columns is an original row. -/
theorem parse_csv_appends_canonical_columns_witness :
    (parse_csv exampleDF).valid.colNames =
        exampleDF.colNames ++ ["latitude", "longitude"]
    ∧ ([PyVal.numStr "10" 10, PyVal.numStr "20" 20, PyVal.str "A",
        PyVal.num 10, PyVal.num 20] : List PyVal).take
          exampleDF.colNames.length ∈ exampleDF.rows :=
  ⟨(parse_csv_appends_canonical_columns exampleDF (by decide) (by decide)).1,
   (parse_csv_appends_canonical_columns exampleDF (by decide) (by decide)).2
     _ (by decide)⟩

/-- C4 counterexample: when the URL file exists but its CSV parse fails,
the exception propagates out of the whole render (the Store dataset,
although perfectly loadable, is never processed) — the dashboard does not
substitute an empty Dataset and carry on. -/
theorem main_render_parse_error_cex :
    main_render true (Except.error "ParserError: Error tokenizing data")
        true (Except.ok exampleDF) true false
      = Except.error "ParserError: Error tokenizing data" := by
  decide

/-- C4 (amended): an existing but unparseable CSV aborts the whole render
with the parse error, whatever the other dataset holds; only a missing
file is substituted by the empty state (both counters zero) and the rest
of the dashboard still renders. -/
theorem main_render_error_policy :
    (∀ (e : String) (sx : Bool) (si : Except String DataFrame) (c f : Bool),
        main_render true (Except.error e) sx si c f = Except.error e)
    ∧ (∀ (i1 i2 : Except String DataFrame) (c f : Bool),
        main_render false i1 false i2 c f =
          Except.ok ⟨emptyResult, emptyResult,
            ⟨(20, 0), 2, [], false, false⟩⟩) := by
  constructor
  · intro e sx si c f; rfl
  · intro i1 i2 c f; rfl

/-- C5: `validate_coordinates` returns true exactly when both inputs
convert with `float` to finite numbers in the latitude range [-90, 90]
and the longitude range [-180, 180]; every conversion failure and every
non-finite value yields false. -/
theorem validate_coordinates_iff (lat lon : PyVal) :
    validate_coordinates lat lon = true ↔
      ((∃ a, toFloat lat = some (PyFloat.finite a) ∧ -90 ≤ a ∧ a ≤ 90)
        ∧ (∃ b, toFloat lon = some (PyFloat.finite b) ∧ -180 ≤ b ∧ b ≤ 180)) := by
  cases lat <;> cases lon <;>
    simp [validate_coordinates, toFloat, PyFloat.le, and_assoc]

/-- C6: the Loader's `valid_count` is always the number of surviving
rows and `invalid_count` the original row count minus it; on the spec's
example CSV exactly the record A survives, with `valid_count = 1` and
`invalid_count = 2`. -/
theorem loader_counts :
    (∀ d : DataFrame,
        (parse_csv d).valid_count = (parse_csv d).valid.rows.length
        ∧ (parse_csv d).invalid_count =
            d.rows.length - (parse_csv d).valid_count)
    ∧ ((parse_csv exampleDF).valid_count = 1
        ∧ (parse_csv exampleDF).invalid_count = 2
        ∧ (parse_csv exampleDF).valid.rows =
            [[PyVal.numStr "10" 10, PyVal.numStr "20" 20, PyVal.str "A",
              PyVal.num 10, PyVal.num 20]]) := by
  constructor
  · intro d
    cases hr : resolveLatLon d with
    | none => simp [parse_csv, hr, emptyDF]
    | some pair =>
      obtain ⟨latc, lonc⟩ := pair
      simp [parse_csv, hr, List.countP_eq_length_filter]
  · exact ⟨by decide, by decide, by decide⟩

/-- C7: the Loader's selected lat/lon columns coincide with the sniffer
as the spec words it (first token-matching names, else the first two
numeric columns), and when even the fallback fails the Loader returns the
empty Dataset with `valid_count = 0` and `invalid_count` the original row
count. -/
theorem sniffer_selects_columns (d : DataFrame) :
    ((parse_csv d).lat_col, (parse_csv d).lon_col) =
      sniff_spec d.colNames (numericCols d)
    ∧ (sniff_spec d.colNames (numericCols d) =
        (Option.none, Option.none) →
      (parse_csv d).valid = emptyDF ∧ (parse_csv d).valid_count = 0
        ∧ (parse_csv d).invalid_count = d.rows.length) := by
  have h := resolve_eq_spec d
  cases hr : resolveLatLon d with
  | none =>
    rw [hr] at h
    exact ⟨by simp [parse_csv, hr, ← h], fun _ => by simp [parse_csv, hr]⟩
  | some pair =>
    obtain ⟨a, b⟩ := pair
    rw [hr] at h
    refine ⟨by simp [parse_csv, hr, ← h], fun hs => ?_⟩
    rw [← h] at hs
    simp at hs

/-- C7 witness: on a frame with no recognisable names and fewer than two
numeric columns, the selection is empty and the Loader returns the empty
Dataset with all rows counted invalid. -/
theorem sniffer_selects_columns_witness :
    (((parse_csv noNumDF).lat_col, (parse_csv noNumDF).lon_col) =
      sniff_spec noNumDF.colNames (numericCols noNumDF))
    ∧ ((parse_csv noNumDF).valid = emptyDF
        ∧ (parse_csv noNumDF).valid_count = 0
        ∧ (parse_csv noNumDF).invalid_count = 1) :=
  ⟨(sniffer_selects_columns noNumDF).1,
   (sniffer_selects_columns noNumDF).2 (by decide)⟩

/-- C8: every record of a loaded Dataset passed coordinate validation —
it is an original row with its canonical coordinates appended, finite and
inside the valid ranges — and the two counters always partition the
original row count. -/
theorem dataset_invariant (d : DataFrame) :
    ((parse_csv d).valid_count + (parse_csv d).invalid_count =
      d.rows.length)
    ∧ ∀ r ∈ (parse_csv d).valid.rows, ∃ o la lo,
        o ∈ d.rows ∧ r = o ++ [PyVal.num la, PyVal.num lo]
        ∧ validate_coordinates (PyVal.num la) (PyVal.num lo) = true
        ∧ -90 ≤ la ∧ la ≤ 90 ∧ -180 ≤ lo ∧ lo ≤ 180 := by
  cases hr : resolveLatLon d with
  | none =>
    constructor
    · simp [parse_csv, hr]
    · intro r hmem
      simp [parse_csv, hr, emptyDF] at hmem
  | some pair =>
    obtain ⟨latc, lonc⟩ := pair
    constructor
    · have hle := List.countP_le_length (l := d.rows)
        (p := rowMask d latc lonc)
      simp only [parse_csv, hr]
      omega
    · intro r hmem
      simp only [parse_csv, hr] at hmem
      obtain ⟨o, ho, rfl⟩ := List.mem_map.mp hmem
      have homask : rowMask d latc lonc o = true :=
        (List.mem_filter.mp ho).2
      have homem : o ∈ d.rows := (List.mem_filter.mp ho).1
      unfold rowMask at homask
      rcases hc1 : (coerceRow d latc lonc o).1 with la | _ | _ | _ <;>
        rcases hc2 : (coerceRow d latc lonc o).2 with lo | _ | _ | _ <;>
        simp [hc1, hc2, PyFloat.notna, PyFloat.between, PyFloat.le]
          at homask
      obtain ⟨⟨h1, h2⟩, h3, h4⟩ := homask
      refine ⟨o, la, lo, homem, rfl, ?_, h1, h2, h3, h4⟩
      simp [validate_coordinates, toFloat, PyFloat.le, h1, h2, h3, h4]

/-- C8 witness: the single record loaded from the example CSV is its
original row with the validated coordinates (10, 20) appended, and the
counters 1 and 2 partition the three original rows. -/
theorem dataset_invariant_witness :
    ((parse_csv exampleDF).valid_count +
        (parse_csv exampleDF).invalid_count = 3)
    ∧ ∃ o la lo,
        o ∈ exampleDF.rows
        ∧ ([PyVal.numStr "10" 10, PyVal.numStr "20" 20, PyVal.str "A",
            PyVal.num 10, PyVal.num 20] : List PyVal) =
            o ++ [PyVal.num la, PyVal.num lo]
        ∧ validate_coordinates (PyVal.num la) (PyVal.num lo) = true
        ∧ -90 ≤ la ∧ la ≤ 90 ∧ -180 ≤ lo ∧ lo ≤ 180 :=
  ⟨(dataset_invariant exampleDF).1,
   (dataset_invariant exampleDF).2 _ (by decide)⟩

/-- C9: whenever both frames are empty, `build_map` returns the default
world view — center [20, 0], zoom 2, no layers — identically and without
error, for every settings combination. -/
theorem build_map_empty_default (u s : DataFrame) (c f : Bool)
    (p1 p2 n1 n2 : Option String) (hu : u.rows = []) (hs : s.rows = []) :
    build_map u s c f p1 p2 n1 n2 =
      Except.ok ⟨(20, 0), 2, [], false, false⟩ := by
  unfold build_map
  rw [hu, hs]
  rfl

/-- C9 witness: composing two concrete empty frames yields exactly the
default world view. -/
theorem build_map_empty_default_witness :
    build_map emptyDF emptyDF true false Option.none Option.none
        Option.none Option.none =
      Except.ok ⟨(20, 0), 2, [], false, false⟩ :=
  build_map_empty_default emptyDF emptyDF true false Option.none
    Option.none Option.none Option.none rfl rfl

/-- C10: on a non-empty frame with the fast setting off, `add_layer` is
exactly the per-row marker construction grouped into a `MarkerCluster`
with the fixed options, and the result does not depend on the cluster
setting at all. -/
theorem add_layer_detailed_path (d : DataFrame) (color nm : String)
    (cl : Bool) (p n : Option String) (hne : d.rows ≠ []) :
    add_layer d color nm cl false p n =
      Except.map
        (fun ms => ⟨nm, LayerContent.markerCluster (nm ++ " Clusters")
          fixedClusterOpts ms⟩)
        (d.rows.mapM (buildMarker d color p n)) := by
  have h1 : d.rows.isEmpty = false := by
    cases hr : d.rows with
    | nil => exact absurd hr hne
    | cons a t => rfl
  unfold add_layer
  rw [h1]
  simp only [Bool.and_false, if_false, Bool.false_eq_true, ite_false]
  cases hm : d.rows.mapM (buildMarker d color p n) with
  | error e => simp [hm, Except.map, Except.bind, bind]
  | ok ms => simp [hm, Except.map, Except.bind, bind]

/-- C10 witness: on the concrete one-record URL frame with fast off and
clustering off, `add_layer` is the MarkerCluster construction with the
fixed options. -/
theorem add_layer_detailed_path_witness :
    add_layer url1 "green" "URL Data (Green)" false false Option.none
        Option.none =
      Except.map
        (fun ms => ⟨"URL Data (Green)",
          LayerContent.markerCluster ("URL Data (Green)" ++ " Clusters")
            fixedClusterOpts ms⟩)
        (url1.rows.mapM (buildMarker url1 "green" Option.none Option.none)) :=
  add_layer_detailed_path url1 "green" "URL Data (Green)" false
    Option.none Option.none (by decide)

end App
